import Mathlib

/-!
Shallow embedding of `src/main.py` (NeuraChat): a single-file conversational
pipeline built from `analyze_sentiment`, `chatbot_response`,
`summarize_conversation` and `update_state` over a pydantic `ChatState`.

Modelling decisions:

* Python strings become `String`; `str.lower` becomes a character-wise
  `Char.toLower` map (all keywords are ASCII); Python's `needle in hay`
  substring test becomes `isSubstring`.
* The external `ollama.chat` call is an oracle parameter
  `chat : Adapter := String → List Message → Except AdapterError String`
  (model name, message list, returning the `response["message"]["content"]`
  text or raising).  The error kinds are modelled from the spec because the
  `ollama` package is not part of this repository.
* pydantic's `model_copy()` is a SHALLOW copy: the copied model shares the
  `messages` list object with the original.  To make this aliasing (and the
  in-place `new_state.messages.append(...)` on line 28) expressible, the
  `messages` list lives in an explicit `Store` (heap of lists addressed by
  `Nat`), and a `ChatStateRef` holds the address of its list plus the four
  string fields (strings are immutable in Python, so attribute assignment on
  the copy never affects the original's strings).
  `ChatState(**new_state.model_dump())` on line 50 re-validates the dumped
  dict and therefore builds a fresh list with equal contents: it is an
  allocation.
* A Python exception becomes `Except.error`; each pipeline function returns
  the trace of `ollama.chat` calls it issued, the store as left at return or
  raise time, and either the resulting state or the propagated error.
-/

/-- One chat turn as stored in `ChatState.messages`: the dict
`{"user": ..., "bot": ...}` appended by `chatbot_response` (line 28). -/
structure Turn where
  user : String
  bot : String
deriving DecidableEq, Repr

/-- A `{"role": ..., "content": ...}` message as passed to `ollama.chat`. -/
structure Message where
  role : String
  content : String
deriving DecidableEq, Repr

/-- Modelled from the spec: the distinct failure kinds of the language-model
client adapter (spec section 4.2 names ConnectionError, MalformedResponse and
Timeout).  The `ollama` backend implementation is not part of this
repository's sources; only its call sites are. -/
inductive AdapterError where
  | connectionError
  | malformedResponse
  | timeout
deriving DecidableEq, Repr

/-- The external text-generation collaborator: `ollama.chat(model=..., messages=...)`,
yielding the reply text `response["message"]["content"]` or an error. -/
abbrev Adapter : Type := String → List Message → Except AdapterError String

/-- One recorded invocation of `ollama.chat` (its model name and message list). -/
structure ChatCall where
  model : String
  messages : List Message
deriving DecidableEq, Repr

/-- Decidable equality for `Except`, used to evaluate pipeline outcomes on
concrete inputs. -/
instance {ε α : Type} [DecidableEq ε] [DecidableEq α] : DecidableEq (Except ε α) := fun a b =>
  match a, b with
  | .error e, .error f =>
      if h : e = f then .isTrue (by rw [h]) else .isFalse (by intro hc; cases hc; exact h rfl)
  | .error _, .ok _ => .isFalse (by intro hc; cases hc)
  | .ok _, .error _ => .isFalse (by intro hc; cases hc)
  | .ok x, .ok y =>
      if h : x = y then .isTrue (by rw [h]) else .isFalse (by intro hc; cases hc; exact h rfl)

/-- Python's substring test `needle in hay` on character lists. -/
def isSubstring (needle hay : List Char) : Bool :=
  match hay with
  | [] => needle.isEmpty
  | _ :: t => needle.isPrefixOf hay || isSubstring needle t

/-- Python's `str.lower()` (character-wise; the keyword sets are ASCII). -/
def strLower (s : String) : String :=
  ⟨s.toList.map Char.toLower⟩

/-- Python's `word in message` on strings. -/
def strContains (hay needle : String) : Bool :=
  isSubstring needle.toList hay.toList

/-- `analyze_sentiment` (src/main.py lines 15-20): keyword lookup on the
lowercased message, negative before positive, defaulting to neutral. -/
def analyze_sentiment (message : String) : String :=
  if ["sad", "depressed", "anxious", "upset"].any (fun word => strContains (strLower message) word) then
    "negative"
  else if ["happy", "excited", "joyful"].any (fun word => strContains (strLower message) word) then
    "positive"
  else
    "neutral"

/-- The reference classification algorithm exactly as the spec words it
(section 4.1): lowercase the text once; if it contains any of the negative
keyword set return negative; else if it contains any of the positive keyword
set return positive; else return neutral. -/
def referenceClassify (text : String) : String :=
  let lowered := strLower text
  if strContains lowered "sad" || strContains lowered "depressed" ||
      strContains lowered "anxious" || strContains lowered "upset" then
    "negative"
  else if strContains lowered "happy" || strContains lowered "excited" ||
      strContains lowered "joyful" then
    "positive"
  else
    "neutral"

/-- The heap of Python list objects reachable as some state's `messages`
field; an address is an index into `heap`. -/
structure Store where
  heap : List (List Turn)
deriving DecidableEq, Repr

/-- Read the list object at address `a`. -/
def Store.read (st : Store) (a : Nat) : List Turn :=
  st.heap.getD a []

/-- Overwrite the list object at address `a` (an in-place list mutation). -/
def Store.write (st : Store) (a : Nat) (l : List Turn) : Store :=
  ⟨st.heap.set a l⟩

/-- Allocate a fresh list object holding `l`; returns the new store and the
fresh address. -/
def Store.alloc (st : Store) (l : List Turn) : Store × Nat :=
  (⟨st.heap ++ [l]⟩, st.heap.length)

/-- A `ChatState` value (src/main.py lines 7-12): the `messages` field is a
reference to a heap-allocated list; the other four fields are immutable
Python strings held directly. -/
structure ChatStateRef where
  messagesAddr : Nat
  sentiment : String
  summary : String
  feedback : String
  user_input : String
deriving DecidableEq, Repr

/-- `chatbot_response` (src/main.py lines 23-31): call `ollama.chat` with the
single user message `state.user_input`; on success shallow-copy the state
(`model_copy`, sharing the `messages` list), append the new turn to that
shared list in place, and set `sentiment`.  Returns the chat-call trace, the
store at return or raise time, and the result or propagated error. -/
def chatbot_response (chat : Adapter) (st : Store) (state : ChatStateRef) :
    List ChatCall × Store × Except AdapterError ChatStateRef :=
  let user_input := state.user_input
  match chat "llama3" [⟨"user", user_input⟩] with
  | .error e => ([⟨"llama3", [⟨"user", user_input⟩]⟩], st, .error e)
  | .ok content =>
      let st1 := st.write state.messagesAddr
        (st.read state.messagesAddr ++ [⟨user_input, content⟩])
      ([⟨"llama3", [⟨"user", user_input⟩]⟩], st1,
        .ok { state with sentiment := analyze_sentiment user_input })

/-- `summarize_conversation` (src/main.py lines 34-41): join all turns as
`user ++ " " ++ bot` with newlines, send the single summarization prompt to
`ollama.chat`, and on success shallow-copy the state and overwrite `summary`
with the raw reply.  No list is mutated. -/
def summarize_conversation (chat : Adapter) (st : Store) (state : ChatStateRef) :
    List ChatCall × Store × Except AdapterError ChatStateRef :=
  let messages_text :=
    String.intercalate "\n" ((st.read state.messagesAddr).map (fun msg => msg.user ++ " " ++ msg.bot))
  match chat "llama3" [⟨"user", "Summarize this conversation: " ++ messages_text⟩] with
  | .error e =>
      ([⟨"llama3", [⟨"user", "Summarize this conversation: " ++ messages_text⟩]⟩], st, .error e)
  | .ok content =>
      ([⟨"llama3", [⟨"user", "Summarize this conversation: " ++ messages_text⟩]⟩], st,
        .ok { state with summary := content })

/-- `update_state` (src/main.py lines 44-50): run `chatbot_response`,
summarize when the turn count is a multiple of 5, and finish with
`ChatState(**new_state.model_dump())`, which re-validates the dump and hence
allocates a fresh `messages` list with equal contents. -/
def update_state (chat : Adapter) (st : Store) (state : ChatStateRef) :
    List ChatCall × Store × Except AdapterError ChatStateRef :=
  match chatbot_response chat st state with
  | (tr, st1, .error e) => (tr, st1, .error e)
  | (tr, st1, .ok new_state) =>
      match (if (st1.read new_state.messagesAddr).length % 5 == 0 then
               summarize_conversation chat st1 new_state
             else ([], st1, .ok new_state)) with
      | (tr2, st2, .error e) => (tr ++ tr2, st2, .error e)
      | (tr2, st2, .ok ns) =>
          (tr ++ tr2, (st2.alloc (st2.read ns.messagesAddr)).1,
            .ok { ns with messagesAddr := (st2.alloc (st2.read ns.messagesAddr)).2 })

/-- The store at process start: `ChatState()` allocates one empty `messages`
list, at address 0. -/
def initialStore : Store := ⟨[[]]⟩

/-- `ChatState()` with its field defaults (src/main.py lines 7-12 and 65). -/
def initialState : ChatStateRef := ⟨0, "neutral", "", "", ""⟩

/-- The interactive loop (src/main.py lines 66-78) driven by a finite list of
user inputs: each iteration stores the input in `user_input` and runs the
pipeline, replacing the held state with the result; a raised error aborts. -/
def runLoop (chat : Adapter) (inputs : List String) (st : Store) (state : ChatStateRef) :
    Store × Except AdapterError ChatStateRef :=
  match inputs with
  | [] => (st, .ok state)
  | i :: rest =>
      match update_state chat st { state with user_input := i } with
      | (_, st1, .error e) => (st1, .error e)
      | (_, st1, .ok s1) => runLoop chat rest st1 s1

/-- Modelled from the spec: the observable condition of one backend
interaction (spec sections 4.2 and 7) — unreachable backend, malformed or
empty response, timeout, or a generated text. -/
inductive BackendCondition where
  | unreachable
  | malformed
  | timedOut
  | generated (text : String)
deriving DecidableEq, Repr

/-- Modelled from the spec: whether a backend condition is a failure. -/
def BackendCondition.isFailure : BackendCondition → Bool
  | .unreachable => true
  | .malformed => true
  | .timedOut => true
  | .generated _ => false

/-- Modelled from the spec: how the adapter surfaces each backend condition
to its caller (spec section 4.2): each failure condition becomes a distinct
error kind rather than returned text. -/
def adapterOutcome : BackendCondition → Except AdapterError String
  | .unreachable => .error .connectionError
  | .malformed => .error .malformedResponse
  | .timedOut => .error .timeout
  | .generated text => .ok text

/-- The list value that `chatbot_response` leaves in the shared `messages`
list: the previous turns with the new turn appended. -/
def newTurns (st : Store) (s : ChatStateRef) (reply : String) : List Turn :=
  st.read s.messagesAddr ++ [⟨s.user_input, reply⟩]

/-- The summarization prompt built by `summarize_conversation` (line 35-36)
from a turn list. -/
def summaryPrompt (l : List Turn) : String :=
  "Summarize this conversation: " ++
    String.intercalate "\n" (l.map (fun msg => msg.user ++ " " ++ msg.bot))

theorem Store.length_write (st : Store) (a : Nat) (l : List Turn) :
    (st.write a l).heap.length = st.heap.length :=
  List.length_set ..

theorem Store.read_write_self (st : Store) (a : Nat) (l : List Turn)
    (h : a < st.heap.length) : (st.write a l).read a = l := by
  simp [Store.read, Store.write, List.getD_eq_getElem?_getD, List.getElem?_set_self h]

theorem Store.length_alloc (st : Store) (l : List Turn) :
    (st.alloc l).1.heap.length = st.heap.length + 1 := by
  simp [Store.alloc]

theorem Store.alloc_snd (st : Store) (l : List Turn) :
    (st.alloc l).2 = st.heap.length :=
  rfl

theorem Store.read_alloc_new (st : Store) (l : List Turn) :
    (st.alloc l).1.read (st.alloc l).2 = l := by
  simp [Store.read, Store.alloc, List.getD_eq_getElem?_getD, List.getElem?_concat_length]

theorem Store.read_alloc_old (st : Store) (l : List Turn) (a : Nat)
    (h : a < st.heap.length) : (st.alloc l).1.read a = st.read a := by
  simp [Store.read, Store.alloc, List.getD_eq_getElem?_getD, List.getElem?_append_left h]

theorem chatbot_response_of_error (chat : Adapter) (st : Store) (s : ChatStateRef)
    (e : AdapterError) (hc : chat "llama3" [⟨"user", s.user_input⟩] = .error e) :
    chatbot_response chat st s = ([⟨"llama3", [⟨"user", s.user_input⟩]⟩], st, .error e) := by
  unfold chatbot_response
  dsimp only
  rw [hc]

theorem chatbot_response_of_ok (chat : Adapter) (st : Store) (s : ChatStateRef)
    (reply : String) (hc : chat "llama3" [⟨"user", s.user_input⟩] = .ok reply) :
    chatbot_response chat st s =
      ([⟨"llama3", [⟨"user", s.user_input⟩]⟩],
        st.write s.messagesAddr (newTurns st s reply),
        .ok { s with sentiment := analyze_sentiment s.user_input }) := by
  unfold chatbot_response
  dsimp only
  rw [hc]
  rfl

theorem summarize_conversation_of_error (chat : Adapter) (st : Store) (s : ChatStateRef)
    (e : AdapterError)
    (hc : chat "llama3" [⟨"user", summaryPrompt (st.read s.messagesAddr)⟩] = .error e) :
    summarize_conversation chat st s =
      ([⟨"llama3", [⟨"user", summaryPrompt (st.read s.messagesAddr)⟩]⟩], st, .error e) := by
  unfold summarize_conversation summaryPrompt
  unfold summaryPrompt at hc
  dsimp only
  rw [hc]

theorem summarize_conversation_of_ok (chat : Adapter) (st : Store) (s : ChatStateRef)
    (reply : String)
    (hc : chat "llama3" [⟨"user", summaryPrompt (st.read s.messagesAddr)⟩] = .ok reply) :
    summarize_conversation chat st s =
      ([⟨"llama3", [⟨"user", summaryPrompt (st.read s.messagesAddr)⟩]⟩], st,
        .ok { s with summary := reply }) := by
  unfold summarize_conversation summaryPrompt
  unfold summaryPrompt at hc
  dsimp only
  rw [hc]

theorem update_state_of_error (chat : Adapter) (st : Store) (s : ChatStateRef)
    (e : AdapterError) (hc : chat "llama3" [⟨"user", s.user_input⟩] = .error e) :
    update_state chat st s = ([⟨"llama3", [⟨"user", s.user_input⟩]⟩], st, .error e) := by
  unfold update_state
  rw [chatbot_response_of_error chat st s e hc]

theorem update_state_of_ok_no_summary (chat : Adapter) (st : Store) (s : ChatStateRef)
    (reply : String) (hv : s.messagesAddr < st.heap.length)
    (hc : chat "llama3" [⟨"user", s.user_input⟩] = .ok reply)
    (h5 : (newTurns st s reply).length % 5 ≠ 0) :
    update_state chat st s =
      ([⟨"llama3", [⟨"user", s.user_input⟩]⟩],
        ((st.write s.messagesAddr (newTurns st s reply)).alloc (newTurns st s reply)).1,
        .ok { s with
          messagesAddr := (st.write s.messagesAddr (newTurns st s reply)).heap.length,
          sentiment := analyze_sentiment s.user_input }) := by
  unfold update_state
  rw [chatbot_response_of_ok chat st s reply hc]
  dsimp only
  rw [Store.read_write_self st s.messagesAddr (newTurns st s reply) hv]
  rw [if_neg (by simpa using h5)]
  dsimp only
  rw [Store.read_write_self st s.messagesAddr (newTurns st s reply) hv]
  rfl

theorem update_state_of_ok_summary (chat : Adapter) (st : Store) (s : ChatStateRef)
    (reply sum : String) (hv : s.messagesAddr < st.heap.length)
    (hc : chat "llama3" [⟨"user", s.user_input⟩] = .ok reply)
    (h5 : (newTurns st s reply).length % 5 = 0)
    (hs : chat "llama3" [⟨"user", summaryPrompt (newTurns st s reply)⟩] = .ok sum) :
    update_state chat st s =
      ([⟨"llama3", [⟨"user", s.user_input⟩]⟩,
        ⟨"llama3", [⟨"user", summaryPrompt (newTurns st s reply)⟩]⟩],
        ((st.write s.messagesAddr (newTurns st s reply)).alloc (newTurns st s reply)).1,
        .ok { s with
          messagesAddr := (st.write s.messagesAddr (newTurns st s reply)).heap.length,
          sentiment := analyze_sentiment s.user_input,
          summary := sum }) := by
  unfold update_state
  rw [chatbot_response_of_ok chat st s reply hc]
  dsimp only
  rw [Store.read_write_self st s.messagesAddr (newTurns st s reply) hv]
  rw [if_pos (by simpa using h5)]
  rw [summarize_conversation_of_ok chat _ _ sum
    (by dsimp only; rwa [Store.read_write_self st s.messagesAddr (newTurns st s reply) hv])]
  dsimp only
  rw [Store.read_write_self st s.messagesAddr (newTurns st s reply) hv]
  rfl

theorem update_state_of_summary_error (chat : Adapter) (st : Store) (s : ChatStateRef)
    (reply : String) (e : AdapterError) (hv : s.messagesAddr < st.heap.length)
    (hc : chat "llama3" [⟨"user", s.user_input⟩] = .ok reply)
    (h5 : (newTurns st s reply).length % 5 = 0)
    (hs : chat "llama3" [⟨"user", summaryPrompt (newTurns st s reply)⟩] = .error e) :
    update_state chat st s =
      ([⟨"llama3", [⟨"user", s.user_input⟩]⟩,
        ⟨"llama3", [⟨"user", summaryPrompt (newTurns st s reply)⟩]⟩],
        st.write s.messagesAddr (newTurns st s reply), .error e) := by
  unfold update_state
  rw [chatbot_response_of_ok chat st s reply hc]
  dsimp only
  rw [Store.read_write_self st s.messagesAddr (newTurns st s reply) hv]
  rw [if_pos (by simpa using h5)]
  rw [summarize_conversation_of_error chat _ _ e
    (by dsimp only; rwa [Store.read_write_self st s.messagesAddr (newTurns st s reply) hv])]
  dsimp only
  rw [Store.read_write_self st s.messagesAddr (newTurns st s reply) hv]
  rfl


/-- Inversion principle for a successful `update_state` call: whatever the
adapter did, a success means the first chat call returned some `reply`, the
result points at a freshly allocated list equal to the old turns plus the one
new turn, the ORIGINAL state's list was mutated to that same value (the
shallow `model_copy` shares it), sentiment was recomputed from the input,
`feedback` and `user_input` are untouched, and `summary` can differ from the
input's only when the new turn count is a multiple of 5. -/
theorem update_state_ok_inv (chat : Adapter) (st : Store) (s : ChatStateRef)
    (tr : List ChatCall) (st' : Store) (s' : ChatStateRef)
    (hv : s.messagesAddr < st.heap.length)
    (h : update_state chat st s = (tr, st', .ok s')) :
    ∃ reply, chat "llama3" [⟨"user", s.user_input⟩] = .ok reply ∧
      s'.messagesAddr = st.heap.length ∧
      st'.heap.length = st.heap.length + 1 ∧
      st'.read s'.messagesAddr = newTurns st s reply ∧
      st'.read s.messagesAddr = newTurns st s reply ∧
      s'.sentiment = analyze_sentiment s.user_input ∧
      s'.feedback = s.feedback ∧
      s'.user_input = s.user_input ∧
      ((newTurns st s reply).length % 5 ≠ 0 → s'.summary = s.summary) ∧
      (s'.summary ≠ s.summary → (newTurns st s reply).length % 5 = 0) := by
  rcases hc : chat "llama3" [⟨"user", s.user_input⟩] with e | reply
  · rw [update_state_of_error chat st s e hc] at h
    exact absurd h (by simp)
  · refine ⟨reply, rfl, ?_⟩
    by_cases h5 : (newTurns st s reply).length % 5 = 0
    · rcases hs : chat "llama3" [⟨"user", summaryPrompt (newTurns st s reply)⟩] with e2 | sum
      · rw [update_state_of_summary_error chat st s reply e2 hv hc h5 hs] at h
        exact absurd h (by simp)
      · rw [update_state_of_ok_summary chat st s reply sum hv hc h5 hs] at h
        simp only [Prod.mk.injEq, Except.ok.injEq] at h
        obtain ⟨-, hst', hs'⟩ := h
        subst hst'
        subst hs'
        refine ⟨by simp [Store.length_write], by simp [Store.length_alloc, Store.length_write], ?_, ?_, rfl, rfl, rfl, ?_, ?_⟩
        · have := Store.read_alloc_new (st.write s.messagesAddr (newTurns st s reply)) (newTurns st s reply)
          simpa [Store.alloc_snd, Store.length_write] using this
        · rw [Store.read_alloc_old _ _ _ (by simpa [Store.length_write] using hv)]
          exact Store.read_write_self st s.messagesAddr (newTurns st s reply) hv
        · intro hne
          exact absurd h5 hne
        · intro _
          exact h5
    · rw [update_state_of_ok_no_summary chat st s reply hv hc h5] at h
      simp only [Prod.mk.injEq, Except.ok.injEq] at h
      obtain ⟨-, hst', hs'⟩ := h
      subst hst'
      subst hs'
      refine ⟨by simp [Store.length_write], by simp [Store.length_alloc, Store.length_write], ?_, ?_, rfl, rfl, rfl, ?_, ?_⟩
      · have := Store.read_alloc_new (st.write s.messagesAddr (newTurns st s reply)) (newTurns st s reply)
        simpa [Store.alloc_snd, Store.length_write] using this
      · rw [Store.read_alloc_old _ _ _ (by simpa [Store.length_write] using hv)]
        exact Store.read_write_self st s.messagesAddr (newTurns st s reply) hv
      · intro _
        rfl
      · intro hne
        exact absurd rfl hne

/-- Driving the loop: from a state whose `messages` address is live, a
successful run over `inputs` ends with a live address and adds exactly one
turn per input. -/
theorem runLoop_ok_inv (chat : Adapter) :
    ∀ (inputs : List String) (st : Store) (s : ChatStateRef),
      s.messagesAddr < st.heap.length →
      ∀ (st' : Store) (s' : ChatStateRef),
        runLoop chat inputs st s = (st', .ok s') →
        s'.messagesAddr < st'.heap.length ∧
        (st'.read s'.messagesAddr).length = (st.read s.messagesAddr).length + inputs.length := by
  intro inputs
  induction inputs with
  | nil =>
      intro st s hv st' s' h
      unfold runLoop at h
      simp only [Prod.mk.injEq, Except.ok.injEq] at h
      obtain ⟨h1, h2⟩ := h
      subst h1
      subst h2
      exact ⟨hv, by simp⟩
  | cons i rest ih =>
      intro st s hv st' s' h
      unfold runLoop at h
      rcases hu : update_state chat st { s with user_input := i } with ⟨tr, st1, r1⟩
      rw [hu] at h
      rcases r1 with e | s1
      · simp at h
      · dsimp only at h
        obtain ⟨reply, -, haddr, hlen, hread, -, -, -, -, -, -⟩ :=
          update_state_ok_inv chat st { s with user_input := i } tr st1 s1 hv hu
        have hv1 : s1.messagesAddr < st1.heap.length := by
          rw [haddr, hlen]
          omega
        have hrest := ih st1 s1 hv1 st' s' h
        refine ⟨hrest.1, ?_⟩
        rw [hrest.2, hread]
        simp [newTurns]
        omega

/-- An adapter that always answers with the text "ok", for concrete runs. -/
def chatOkConst : Adapter := fun _ _ => .ok "ok"

/-- An adapter whose backend is unreachable, for concrete runs. -/
def chatConnErr : Adapter := fun _ _ => .error .connectionError

/-- C3: `analyze_sentiment` agrees with the spec's reference classification
algorithm on every string (lowercase, negative keywords first, then positive,
else neutral); it is case-insensitive on the sample pair "SAD"/"sad", and a
negative keyword forces "negative" whatever else the text contains. -/
theorem C3_classifier_matches_reference :
    (∀ text, analyze_sentiment text = referenceClassify text) ∧
    analyze_sentiment "SAD" = "negative" ∧
    analyze_sentiment "sad" = "negative" ∧
    (∀ text, ["sad", "depressed", "anxious", "upset"].any
        (fun word => strContains (strLower text) word) = true →
      analyze_sentiment text = "negative") := by
  refine ⟨?_, by decide, by decide, ?_⟩
  · intro text
    unfold analyze_sentiment referenceClassify
    dsimp only
    simp only [List.any_cons, List.any_nil, Bool.or_false, Bool.or_assoc]
  · intro text h
    unfold analyze_sentiment
    rw [if_pos h]

/-- C3 witness: the reference agreement evaluated at "HAPPY day", and the
priority rule applied to a text with both a positive and a negative keyword. -/
theorem C3_witness :
    analyze_sentiment "HAPPY day" = referenceClassify "HAPPY day" ∧
    analyze_sentiment "I am happy but sad" = "negative" :=
  ⟨C3_classifier_matches_reference.1 "HAPPY day",
   C3_classifier_matches_reference.2.2.2 "I am happy but sad" (by decide)⟩

/-- C7: `chatbot_response` issues exactly one adapter call, consisting of a
single user-role message whose content is the latest user input — no prior
turns, summary or system prompt are forwarded, whatever the state holds. -/
theorem C7_single_message_prompt :
    ∀ (chat : Adapter) (st : Store) (s : ChatStateRef),
      (chatbot_response chat st s).1 = [⟨"llama3", [⟨"user", s.user_input⟩]⟩] := by
  intro chat st s
  unfold chatbot_response
  dsimp only
  rcases chat "llama3" [⟨"user", s.user_input⟩] with e | r
  · rfl
  · rfl

/-- C8: in the spec-modelled adapter each of the three failure conditions
surfaces as its own error kind, the three kinds are pairwise distinct, and a
failing call never silently returns text. -/
theorem C8_distinct_error_kinds :
    adapterOutcome .unreachable = .error .connectionError ∧
    adapterOutcome .malformed = .error .malformedResponse ∧
    adapterOutcome .timedOut = .error .timeout ∧
    (AdapterError.connectionError ≠ AdapterError.malformedResponse ∧
      AdapterError.connectionError ≠ AdapterError.timeout ∧
      AdapterError.malformedResponse ≠ AdapterError.timeout) ∧
    (∀ c : BackendCondition, c.isFailure = true →
      ∀ text : String, adapterOutcome c ≠ .ok text) := by
  refine ⟨rfl, rfl, rfl, by decide, ?_⟩
  intro c hf text
  cases c <;> simp [adapterOutcome, BackendCondition.isFailure] at hf ⊢

/-- C8 witness: an unreachable backend is a failure and indeed never comes
back as returned text. -/
theorem C8_witness : adapterOutcome .unreachable ≠ .ok "hello" :=
  C8_distinct_error_kinds.2.2.2.2 .unreachable (by decide) "hello"

/-- C1: a successful `update_state` call returns a state whose turns list is
the input state's turns with exactly one {userText, botText} entry appended;
consequently a successful run of N inputs from the empty initial state ends
with exactly N turns. -/
theorem C1_one_turn_per_call :
    (∀ (chat : Adapter) (st : Store) (s : ChatStateRef) (tr : List ChatCall)
        (st' : Store) (s' : ChatStateRef),
      s.messagesAddr < st.heap.length →
      update_state chat st s = (tr, st', .ok s') →
      ∃ reply, chat "llama3" [⟨"user", s.user_input⟩] = .ok reply ∧
        st'.read s'.messagesAddr = st.read s.messagesAddr ++ [⟨s.user_input, reply⟩]) ∧
    (∀ (chat : Adapter) (inputs : List String) (st' : Store) (s' : ChatStateRef),
      runLoop chat inputs initialStore initialState = (st', .ok s') →
      (st'.read s'.messagesAddr).length = inputs.length) := by
  constructor
  · intro chat st s tr st' s' hv h
    obtain ⟨reply, hc, -, -, hread, -, -, -, -, -, -⟩ :=
      update_state_ok_inv chat st s tr st' s' hv h
    exact ⟨reply, hc, hread⟩
  · intro chat inputs st' s' h
    have hrun := runLoop_ok_inv chat inputs initialStore initialState (by decide) st' s' h
    simpa [initialStore, initialState, Store.read] using hrun.2

/-- C1 witness: one concrete call appends one turn, and a one-input run from
the initial state ends with one turn. -/
theorem C1_witness :
    (∃ reply, chatOkConst "llama3" [⟨"user", "hi"⟩] = .ok reply ∧
      (⟨[[⟨"hi", "ok"⟩], [⟨"hi", "ok"⟩]]⟩ : Store).read 1 =
        (⟨[[]]⟩ : Store).read 0 ++ [⟨"hi", reply⟩]) ∧
    ((⟨[[⟨"a", "ok"⟩], [⟨"a", "ok"⟩]]⟩ : Store).read 1).length = (["a"] : List String).length :=
  ⟨C1_one_turn_per_call.1 chatOkConst ⟨[[]]⟩ ⟨0, "neutral", "", "", "hi"⟩
      [⟨"llama3", [⟨"user", "hi"⟩]⟩] ⟨[[⟨"hi", "ok"⟩], [⟨"hi", "ok"⟩]]⟩
      ⟨1, "neutral", "", "", "hi"⟩ (by decide) (by decide),
   C1_one_turn_per_call.2 chatOkConst ["a"] ⟨[[⟨"a", "ok"⟩], [⟨"a", "ok"⟩]]⟩
      ⟨1, "neutral", "", "", "a"⟩ (by decide)⟩

/-- C2: after a successful `update_state` the summary differs from the input
state's only when the resulting turn count is a positive multiple of 5, and on
every other call it equals the input state's summary. -/
theorem C2_summary_window :
    ∀ (chat : Adapter) (st : Store) (s : ChatStateRef) (tr : List ChatCall)
      (st' : Store) (s' : ChatStateRef),
      s.messagesAddr < st.heap.length →
      update_state chat st s = (tr, st', .ok s') →
      (s'.summary ≠ s.summary →
        (st'.read s'.messagesAddr).length % 5 = 0 ∧ 0 < (st'.read s'.messagesAddr).length) ∧
      (¬((st'.read s'.messagesAddr).length % 5 = 0 ∧ 0 < (st'.read s'.messagesAddr).length) →
        s'.summary = s.summary) := by
  intro chat st s tr st' s' hv h
  obtain ⟨reply, -, -, -, hreadN, -, -, -, -, hsum1, hsum2⟩ :=
    update_state_ok_inv chat st s tr st' s' hv h
  have hpos : 0 < (st'.read s'.messagesAddr).length := by
    rw [hreadN]
    simp [newTurns]
  constructor
  · intro hne
    refine ⟨?_, hpos⟩
    rw [hreadN]
    exact hsum2 hne
  · intro hnot
    have h5 : (st'.read s'.messagesAddr).length % 5 ≠ 0 := fun hmod => hnot ⟨hmod, hpos⟩
    rw [hreadN] at h5
    exact hsum1 h5

/-- C2 witness: a concrete first call (turn count 1, not a multiple of 5)
leaves the summary unchanged. -/
theorem C2_witness :
    ((("" : String) ≠ "" →
        ((⟨[[⟨"hi", "ok"⟩], [⟨"hi", "ok"⟩]]⟩ : Store).read 1).length % 5 = 0 ∧
          0 < ((⟨[[⟨"hi", "ok"⟩], [⟨"hi", "ok"⟩]]⟩ : Store).read 1).length) ∧
      (¬(((⟨[[⟨"hi", "ok"⟩], [⟨"hi", "ok"⟩]]⟩ : Store).read 1).length % 5 = 0 ∧
          0 < ((⟨[[⟨"hi", "ok"⟩], [⟨"hi", "ok"⟩]]⟩ : Store).read 1).length) →
        ("" : String) = "")) :=
  C2_summary_window chatOkConst ⟨[[]]⟩ ⟨0, "neutral", "", "", "hi"⟩
    [⟨"llama3", [⟨"user", "hi"⟩]⟩] ⟨[[⟨"hi", "ok"⟩], [⟨"hi", "ok"⟩]]⟩
    ⟨1, "neutral", "", "", "hi"⟩ (by decide) (by decide)

/-- C4: a successful `summarize_conversation` returns the input state with
only `summary` replaced — fully, by the adapter's raw reply to the single
prompt "Summarize this conversation: " followed by the turns joined as
`user ++ " " ++ bot` with newlines; the store (hence every turns list) and
the sentiment are untouched. -/
theorem C4_summarize_contract :
    ∀ (chat : Adapter) (st : Store) (s : ChatStateRef) (reply : String),
      chat "llama3" [⟨"user", "Summarize this conversation: " ++
          String.intercalate "\n"
            ((st.read s.messagesAddr).map (fun msg => msg.user ++ " " ++ msg.bot))⟩] = .ok reply →
      summarize_conversation chat st s =
        ([⟨"llama3", [⟨"user", "Summarize this conversation: " ++
            String.intercalate "\n"
              ((st.read s.messagesAddr).map (fun msg => msg.user ++ " " ++ msg.bot))⟩]⟩],
          st, .ok { s with summary := reply }) := by
  intro chat st s reply hc
  exact summarize_conversation_of_ok chat st s reply hc

/-- C4 witness: summarizing a one-turn conversation with a constant adapter
replaces the summary and leaves everything else alone. -/
theorem C4_witness :
    summarize_conversation chatOkConst ⟨[[⟨"hi", "hello"⟩]]⟩ ⟨0, "neutral", "old", "", "hi"⟩ =
      ([⟨"llama3", [⟨"user", "Summarize this conversation: hi hello"⟩]⟩],
        ⟨[[⟨"hi", "hello"⟩]]⟩, .ok ⟨0, "neutral", "ok", "", "hi"⟩) :=
  C4_summarize_contract chatOkConst ⟨[[⟨"hi", "hello"⟩]]⟩ ⟨0, "neutral", "old", "", "hi"⟩ "ok"
    (by decide)

/-- C5: if the adapter call made during respond fails, `chatbot_response`
propagates exactly that error (no retry, no catching) and so does
`update_state` around it; the store is returned exactly as it was, so the
caller's state still has its pre-call turns, sentiment and summary. -/
theorem C5_respond_error_propagation :
    ∀ (chat : Adapter) (st : Store) (s : ChatStateRef) (e : AdapterError),
      chat "llama3" [⟨"user", s.user_input⟩] = .error e →
      chatbot_response chat st s = ([⟨"llama3", [⟨"user", s.user_input⟩]⟩], st, .error e) ∧
      update_state chat st s = ([⟨"llama3", [⟨"user", s.user_input⟩]⟩], st, .error e) := by
  intro chat st s e hc
  exact ⟨chatbot_response_of_error chat st s e hc, update_state_of_error chat st s e hc⟩

/-- C5 witness: a connection error from the backend surfaces unchanged from a
concrete call and the store is untouched. -/
theorem C5_witness :
    chatbot_response chatConnErr ⟨[[]]⟩ ⟨0, "neutral", "", "", "hi"⟩ =
        ([⟨"llama3", [⟨"user", "hi"⟩]⟩], ⟨[[]]⟩, .error .connectionError) ∧
    update_state chatConnErr ⟨[[]]⟩ ⟨0, "neutral", "", "", "hi"⟩ =
        ([⟨"llama3", [⟨"user", "hi"⟩]⟩], ⟨[[]]⟩, .error .connectionError) :=
  C5_respond_error_propagation chatConnErr ⟨[[]]⟩ ⟨0, "neutral", "", "", "hi"⟩
    .connectionError (by decide)

/-- C6 counterexample: `update_state` is not copy-on-write for the caller. On
a concrete successful call the list object the input state's `messages` field
points at has gained an entry: `model_copy()` is shallow, so line 28's
in-place append hits the caller's own turns list. -/
theorem C6_counterexample :
    (update_state chatOkConst ⟨[[]]⟩ ⟨0, "neutral", "", "", "hi"⟩).2.2 =
        .ok ⟨1, "neutral", "", "", "hi"⟩ ∧
    (update_state chatOkConst ⟨[[]]⟩ ⟨0, "neutral", "", "", "hi"⟩).2.1.read 0 ≠
        (⟨[[]]⟩ : Store).read 0 := by
  decide

/-- C6 amended: each successful `update_state` call does hand back a freshly
allocated snapshot (a new `messages` list at a new address) and never touches
the original's immutable string fields, BUT the original state's `messages`
list is shared with the shallow copy and is mutated in place: after the call
it equals its pre-call value with the new turn appended. -/
theorem C6_amended_shallow_copy_mutates :
    ∀ (chat : Adapter) (st : Store) (s : ChatStateRef) (tr : List ChatCall)
      (st' : Store) (s' : ChatStateRef),
      s.messagesAddr < st.heap.length →
      update_state chat st s = (tr, st', .ok s') →
      s'.messagesAddr ≠ s.messagesAddr ∧
      ∃ reply, chat "llama3" [⟨"user", s.user_input⟩] = .ok reply ∧
        st'.read s.messagesAddr = st.read s.messagesAddr ++ [⟨s.user_input, reply⟩] := by
  intro chat st s tr st' s' hv h
  obtain ⟨reply, hc, haddr, -, -, hreadO, -, -, -, -, -⟩ :=
    update_state_ok_inv chat st s tr st' s' hv h
  refine ⟨?_, reply, hc, hreadO⟩
  rw [haddr]
  omega

/-- C6 amended witness: the concrete call of the counterexample, where the
fresh snapshot lives at address 1 while the original list at address 0 has
the new turn appended. -/
theorem C6_witness :
    (1 : Nat) ≠ 0 ∧
    ∃ reply, chatOkConst "llama3" [⟨"user", "hi"⟩] = .ok reply ∧
      (⟨[[⟨"hi", "ok"⟩], [⟨"hi", "ok"⟩]]⟩ : Store).read 0 =
        (⟨[[]]⟩ : Store).read 0 ++ [⟨"hi", reply⟩] :=
  C6_amended_shallow_copy_mutates chatOkConst ⟨[[]]⟩ ⟨0, "neutral", "", "", "hi"⟩
    [⟨"llama3", [⟨"user", "hi"⟩]⟩] ⟨[[⟨"hi", "ok"⟩], [⟨"hi", "ok"⟩]]⟩
    ⟨1, "neutral", "", "", "hi"⟩ (by decide) (by decide)

/-- C9: blank user input is processed like any other input: the adapter is
still called (with the blank text as the single user message), the classifier
yields "neutral" so the resulting sentiment is "neutral", and one turn is
still appended to the shared turns list. -/
theorem C9_blank_input_processed :
    ∀ (chat : Adapter) (st : Store) (s : ChatStateRef) (reply : String),
      s.user_input = "" →
      s.messagesAddr < st.heap.length →
      chat "llama3" [⟨"user", ""⟩] = .ok reply →
      analyze_sentiment "" = "neutral" ∧
      (chatbot_response chat st s).1 = [⟨"llama3", [⟨"user", ""⟩]⟩] ∧
      ∃ st1 : Store,
        chatbot_response chat st s =
          ([⟨"llama3", [⟨"user", ""⟩]⟩], st1, .ok { s with sentiment := "neutral" }) ∧
        st1.read s.messagesAddr = st.read s.messagesAddr ++ [⟨"", reply⟩] := by
  intro chat st s reply hu hv hc
  have hc' : chat "llama3" [⟨"user", s.user_input⟩] = .ok reply := by
    rw [hu]
    exact hc
  have hsent : analyze_sentiment s.user_input = "neutral" := by
    rw [hu]
    decide
  have hcr := chatbot_response_of_ok chat st s reply hc'
  refine ⟨by decide, ?_, ?_⟩
  · rw [hcr, hu]
  · refine ⟨st.write s.messagesAddr (newTurns st s reply), ?_, ?_⟩
    · rw [hcr, hsent, hu]
    · rw [Store.read_write_self st s.messagesAddr (newTurns st s reply) hv]
      simp [newTurns, hu]

/-- C9 witness: the empty input on the empty initial state is still sent to
the adapter, classified neutral, and recorded as a turn. -/
theorem C9_witness :
    analyze_sentiment "" = "neutral" ∧
    (chatbot_response chatOkConst ⟨[[]]⟩ ⟨0, "neutral", "", "", ""⟩).1 =
        [⟨"llama3", [⟨"user", ""⟩]⟩] ∧
    ∃ st1 : Store,
      chatbot_response chatOkConst ⟨[[]]⟩ ⟨0, "neutral", "", "", ""⟩ =
        ([⟨"llama3", [⟨"user", ""⟩]⟩], st1, .ok ⟨0, "neutral", "", "", ""⟩) ∧
      st1.read 0 = (⟨[[]]⟩ : Store).read 0 ++ [⟨"", "ok"⟩] :=
  C9_blank_input_processed chatOkConst ⟨[[]]⟩ ⟨0, "neutral", "", "", ""⟩ "ok"
    rfl (by decide) (by decide)

/-- C10: a successful `update_state` call, whether or not it summarizes,
returns a state whose `feedback` and `user_input` fields equal the input
state's — the pipeline only ever touches `messages`, `sentiment` and (on
multiple-of-5 calls) `summary`. -/
theorem C10_feedback_user_input_frame :
    ∀ (chat : Adapter) (st : Store) (s : ChatStateRef) (tr : List ChatCall)
      (st' : Store) (s' : ChatStateRef),
      s.messagesAddr < st.heap.length →
      update_state chat st s = (tr, st', .ok s') →
      s'.feedback = s.feedback ∧ s'.user_input = s.user_input := by
  intro chat st s tr st' s' hv h
  obtain ⟨reply, -, -, -, -, -, -, hf, hui, -, -⟩ :=
    update_state_ok_inv chat st s tr st' s' hv h
  exact ⟨hf, hui⟩

/-- C10 witness: the concrete first call preserves `feedback` and
`user_input`. -/
theorem C10_witness :
    (⟨1, "neutral", "", "fb", "hi"⟩ : ChatStateRef).feedback =
        (⟨0, "neutral", "", "fb", "hi"⟩ : ChatStateRef).feedback ∧
    (⟨1, "neutral", "", "fb", "hi"⟩ : ChatStateRef).user_input =
        (⟨0, "neutral", "", "fb", "hi"⟩ : ChatStateRef).user_input :=
  C10_feedback_user_input_frame chatOkConst ⟨[[]]⟩ ⟨0, "neutral", "", "fb", "hi"⟩
    [⟨"llama3", [⟨"user", "hi"⟩]⟩] ⟨[[⟨"hi", "ok"⟩], [⟨"hi", "ok"⟩]]⟩
    ⟨1, "neutral", "", "fb", "hi"⟩ (by decide) (by decide)
